import Mathlib

/-
Verification of the MEGA65 fdisk/format utility (src/fdisk.c).

The development shallowly embeds the hardware independent logic of the
utility: the partition planner, the FAT32 cluster fitting loop, the
system partition layout, the metadata sector image builders, the
formatting write/erase sequence and the embedded file populator.
Machine integers are modelled as Nat with explicit reduction modulo
2 ^ 32 exactly where the C code performs uint32_t arithmetic.
-/

namespace Fdisk

/-- Unsigned 32 bit subtraction: the value of a - b computed on uint32_t. -/
def sub32 (a b : Nat) : Nat := (a + (2 ^ 32 - b % 2 ^ 32)) % 2 ^ 32

/-- Byte k of a little endian 32 bit value, mirroring (value >> (k*8)) & 0xff. -/
def byteOf (v k : Nat) : Nat := (v >>> (8 * k)) &&& 0xff

/-- A 512 byte sector buffer modelled as a function from offsets to byte values. -/
def bufUpd (buf : Nat → Nat) (off v : Nat) : Nat → Nat := fun i => if i = off then v else buf i

/-- The cleared sector buffer produced by clear_sector_buffer. -/
def zeroBuf : Nat → Nat := fun _ => 0

/-- Little endian 32 bit read back from a sector buffer, used to state claims. -/
def readLE32 (buf : Nat → Nat) (off : Nat) : Nat :=
  buf off + 256 * buf (off + 1) + 65536 * buf (off + 2) + 16777216 * buf (off + 3)

/-- Little endian 16 bit read back from a sector buffer, used to state claims. -/
def readLE16 (buf : Nat → Nat) (off : Nat) : Nat :=
  buf off + 256 * buf (off + 1)

/-- Exactness of u32 subtraction when no wraparound occurs. -/
theorem sub32_exact {a b : Nat} (hba : b ≤ a) (ha : a < 2 ^ 32) : sub32 a b = a - b := by
  unfold sub32
  have hb : b % 2 ^ 32 = b := Nat.mod_eq_of_lt (lt_of_le_of_lt hba ha)
  rw [hb]
  have h1 : a + (2 ^ 32 - b) = (a - b) + 2 ^ 32 := by omega
  rw [h1, Nat.add_mod_right]
  exact Nat.mod_eq_of_lt (by omega)

/-- Masking a 32 bit value with 0xfffff800 rounds it down to a multiple of 2048. -/
theorem and_high_mask (x : Nat) (hx : x < 2 ^ 32) : x &&& 0xfffff800 = x / 2048 * 2048 := by
  have hm : (0xfffff800 : Nat) = (2 ^ 21 - 1) <<< 11 := by norm_num [Nat.shiftLeft_eq]
  have hr : x / 2048 * 2048 = (x >>> 11) <<< 11 := by
    rw [Nat.shiftRight_eq_div_pow, Nat.shiftLeft_eq]
  rw [hm, hr]
  apply Nat.eq_of_testBit_eq
  intro i
  rw [Nat.testBit_and, Nat.testBit_shiftLeft, Nat.testBit_shiftLeft, Nat.testBit_shiftRight,
    Nat.testBit_two_pow_sub_one]
  by_cases h11 : 11 ≤ i
  · by_cases h32 : i < 32
    · have h21 : i - 11 < 21 := by omega
      have hplus : 11 + (i - 11) = i := by omega
      simp [h11, h21, hplus, ge_iff_le]
    · have hif : x.testBit i = false :=
        Nat.testBit_lt_two_pow (lt_of_lt_of_le hx (Nat.pow_le_pow_right (by norm_num) (by omega)))
      have hplus : 11 + (i - 11) = i := by omega
      simp [h11, hplus, hif, ge_iff_le]
  · simp [h11, ge_iff_le]

/-- Size in sectors of the system partition, from main: half of the space past
sector 0x800, capped at 2 GiB, rounded down to a 1 MiB boundary by masking. -/
def sys_partition_sectors_of (sdcard_sectors : Nat) : Nat :=
  (if sub32 sdcard_sectors 0x0800 >>> 1 > 2 * 1024 * (1024 * 1024 / 512)
    then 2 * 1024 * (1024 * 1024 / 512)
    else sub32 sdcard_sectors 0x0800 >>> 1) &&& 0xfffff800

/-- Size in sectors of the FAT32 partition, from main. -/
def fat_partition_sectors_of (sdcard_sectors : Nat) : Nat :=
  sub32 (sub32 sdcard_sectors 0x800) (sys_partition_sectors_of sdcard_sectors)

/-- Reserved sector count of the FAT32 volume, a global constant in the source. -/
def reserved_sectors : Nat := 568

/-- Sectors per cluster, a global constant in the source. -/
def sectors_per_cluster : Nat := 8

/-- Sectors of the FAT partition available past the reserved area, from main. -/
def fat_available_of (sdcard_sectors : Nat) : Nat :=
  sub32 (fat_partition_sectors_of sdcard_sectors) reserved_sectors

/-- Initial cluster count before the fitting loop, from main. -/
def init_fs_clusters_of (sdcard_sectors : Nat) : Nat :=
  fat_available_of sdcard_sectors / sectors_per_cluster

/-- FAT sector count for a given cluster count: fs_clusters / 128 rounded up,
written as in the source with a conditional increment. -/
def fat_sectors_of (fs_clusters : Nat) : Nat :=
  fs_clusters / (512 / 4) + (if fs_clusters % (512 / 4) = 0 then 0 else 1)

/-- Sectors required by the FAT copies plus the data clusters, computed in
uint32_t arithmetic exactly as in main. -/
def sectors_required_of (fs_clusters : Nat) : Nat :=
  ((2 * fat_sectors_of fs_clusters) % 2 ^ 32 +
    (sub32 fs_clusters 2 * sectors_per_cluster) % 2 ^ 32) % 2 ^ 32

/-- Cluster fitting loop from main, with explicit fuel; none means the loop did
not terminate within the given fuel. -/
def cluster_loop (fat_available_sectors : Nat) : Nat → Nat → Option Nat
  | 0, _ => none
  | fuel + 1, fs_clusters =>
    if sectors_required_of fs_clusters > fat_available_sectors then
      let excess := sectors_required_of fs_clusters - fat_available_sectors
      let delta := excess / (1 + sectors_per_cluster)
      let delta := if delta < 1 then 1 else delta
      cluster_loop fat_available_sectors fuel (sub32 fs_clusters delta)
    else some fs_clusters

/-- C1: for every device of at least 0x800 sectors (in u32 range), the planner
splits the device exactly: fat + sys + 0x800 = total, the system partition is a
multiple of 2048 sectors, and it equals min((total - 0x800) / 2, 2*1024*2048)
rounded down to a multiple of 2048. -/
theorem spec_c1_partition_planner (total : Nat) (h0 : 0x800 ≤ total) (h1 : total < 2 ^ 32) :
    fat_partition_sectors_of total + sys_partition_sectors_of total + 0x800 = total ∧
    sys_partition_sectors_of total % 2048 = 0 ∧
    sys_partition_sectors_of total = min ((total - 0x800) / 2) (2 * 1024 * 2048) / 2048 * 2048 := by
  have hsub : sub32 total 0x800 = total - 0x800 := sub32_exact h0 h1
  have hcap : 2 * 1024 * (1024 * 1024 / 512) = 2 * 1024 * 2048 := by norm_num
  have hshift : (total - 0x800) >>> 1 = (total - 0x800) / 2 := by
    rw [Nat.shiftRight_eq_div_pow, pow_one]
  have hmin : (if (total - 0x800) / 2 > 2 * 1024 * 2048 then 2 * 1024 * 2048
      else (total - 0x800) / 2) = min ((total - 0x800) / 2) (2 * 1024 * 2048) := by
    rcases le_or_lt ((total - 0x800) / 2) (2 * 1024 * 2048) with h | h
    · rw [if_neg (by omega), min_eq_left h]
    · rw [if_pos h, min_eq_right (le_of_lt h)]
  have hxlt : min ((total - 0x800) / 2) (2 * 1024 * 2048) < 2 ^ 32 :=
    lt_of_le_of_lt (min_le_left _ _) (lt_of_le_of_lt (Nat.div_le_self _ _) (by omega))
  have hsys : sys_partition_sectors_of total =
      min ((total - 0x800) / 2) (2 * 1024 * 2048) / 2048 * 2048 := by
    unfold sys_partition_sectors_of
    rw [hsub, hcap, hshift, hmin]
    exact and_high_mask _ hxlt
  have hsys_le : sys_partition_sectors_of total ≤ total - 0x800 := by
    rw [hsys]
    calc min ((total - 0x800) / 2) (2 * 1024 * 2048) / 2048 * 2048
        ≤ min ((total - 0x800) / 2) (2 * 1024 * 2048) := Nat.div_mul_le_self _ _
      _ ≤ (total - 0x800) / 2 := min_le_left _ _
      _ ≤ total - 0x800 := Nat.div_le_self _ _
  have hfat : fat_partition_sectors_of total = total - 0x800 - sys_partition_sectors_of total := by
    unfold fat_partition_sectors_of
    rw [hsub]
    exact sub32_exact hsys_le (by omega)
  refine ⟨by omega, ?_, hsys⟩
  rw [hsys]
  exact Nat.mul_mod_left _ _

/-- Witness for C1 at a concrete device size of 4000000 sectors. -/
theorem spec_c1_partition_planner_witness :
    fat_partition_sectors_of 4000000 + sys_partition_sectors_of 4000000 + 0x800 = 4000000 ∧
    sys_partition_sectors_of 4000000 % 2048 = 0 ∧
    sys_partition_sectors_of 4000000 =
      min ((4000000 - 0x800) / 2) (2 * 1024 * 2048) / 2048 * 2048 :=
  spec_c1_partition_planner 4000000 (by norm_num) (by norm_num)

/-- C2: whenever the cluster fitting loop terminates, the resulting cluster
count satisfies 2 * fat_sectors + (fs_clusters - 2) * 8 <= fat_available, in the
uint32_t arithmetic of the source, where fat_sectors = ceil(fs_clusters / 128). -/
theorem spec_c2_cluster_loop_invariant (avail fuel c0 c : Nat)
    (h : cluster_loop avail fuel c0 = some c) :
    sectors_required_of c ≤ avail ∧ fat_sectors_of c = (c + 127) / 128 := by
  constructor
  · induction fuel generalizing c0 with
    | zero => simp [cluster_loop] at h
    | succ n ih =>
      rw [cluster_loop] at h
      by_cases hc : sectors_required_of c0 > avail
      · rw [if_pos hc] at h
        exact ih _ h
      · rw [if_neg hc] at h
        injection h with h
        subst h
        omega
  · unfold fat_sectors_of
    by_cases h0 : c % (512 / 4) = 0
    · simp only [h0, if_pos]
      omega
    · rw [if_neg h0]
      omega

/-- Witness for C2 at the geometry of a 4000000 sector device, where the loop
terminates after four iterations with 249332 clusters. -/
theorem spec_c2_cluster_loop_invariant_witness :
    cluster_loop (fat_available_of 4000000) 10 (init_fs_clusters_of 4000000) = some 249332 ∧
    sectors_required_of 249332 ≤ fat_available_of 4000000 ∧
    fat_sectors_of 249332 = (249332 + 127) / 128 := by
  have h : cluster_loop (fat_available_of 4000000) 10 (init_fs_clusters_of 4000000) =
      some 249332 := by decide
  have h2 := spec_c2_cluster_loop_invariant (fat_available_of 4000000) 10
    (init_fs_clusters_of 4000000) 249332 h
  exact ⟨h, h2.1, h2.2⟩

/-- C3: on a device of 2632 sectors the cluster fitting loop terminates at once
with fs_clusters = 2, strictly below the minimum of 3 clusters needed for a
valid volume, and execution continues towards formatting: the source contains
no CapacityError check at all, so nothing aborts before sectors are written. -/
theorem spec_c3_no_capacity_error_check :
    cluster_loop (fat_available_of 2632) 16 (init_fs_clusters_of 2632) = some 2 ∧
    (2 : Nat) < 3 := by
  constructor
  · decide
  · norm_num

/-- Size in sectors of a freeze or service slot (512 KiB), from
build_mega65_sys_sector. -/
def sys_slot_size : Nat := 512 * 1024 / 512

/-- Reserved sectors at the start of the system partition (1 MiB), from
build_mega65_sys_sector. -/
def sys_reserved_sectors : Nat := 1024 * 1024 / 512

/-- Freeze and service slot count, from build_mega65_sys_sector: uint32_t
division of the space past the reserved area, capped at 0xffff. -/
def slot_count_of (sys_partition_sectors : Nat) : Nat :=
  if sub32 sys_partition_sectors sys_reserved_sectors / (sys_slot_size * 2 + 1) ≥ 0xffff
    then 0xffff
    else sub32 sys_partition_sectors sys_reserved_sectors / (sys_slot_size * 2 + 1)

/-- Directory size in sectors for the freeze and the service directory, from
build_mega65_sys_sector. -/
def dir_size_of (sys_partition_sectors : Nat) : Nat :=
  1 + slot_count_of sys_partition_sectors / 4

/-- Relative start of the freeze directory: it begins right after the reserved
area, from build_mega65_sys_sector. -/
def sys_partition_freeze_dir_rel : Nat := sys_reserved_sectors

/-- Relative start of the service directory, from build_mega65_sys_sector: the
freeze directory start plus slot_size * slot_count sectors. -/
def sys_partition_service_dir_rel (sys_partition_sectors : Nat) : Nat :=
  sys_partition_freeze_dir_rel + sys_slot_size * slot_count_of sys_partition_sectors

/-- Absolute device LBA of the freeze directory after the final conversion in
build_mega65_sys_sector. -/
def sys_partition_freeze_dir_abs (sys_partition_start : Nat) : Nat :=
  sys_partition_freeze_dir_rel + sys_partition_start

/-- Absolute device LBA of the service directory after the final conversion in
build_mega65_sys_sector. -/
def sys_partition_service_dir_abs (sys_partition_start sys_partition_sectors : Nat) : Nat :=
  sys_partition_service_dir_rel sys_partition_sectors + sys_partition_start

/-- C8: for every system partition of at least 2048 sectors the layout
computation is total and matches the closed forms
slot_count = min((sys - 2048) / 2049, 65535) and dir_size = 1 + slot_count / 4. -/
theorem spec_c8_sys_layout_total (s : Nat) (h0 : 2048 ≤ s) (h1 : s < 2 ^ 32) :
    slot_count_of s = min ((s - 2048) / 2049) 65535 ∧
    dir_size_of s = 1 + min ((s - 2048) / 2049) 65535 / 4 := by
  have hres : sys_reserved_sectors = 2048 := by norm_num [sys_reserved_sectors]
  have hdivisor : sys_slot_size * 2 + 1 = 2049 := by norm_num [sys_slot_size]
  have hsub : sub32 s sys_reserved_sectors = s - 2048 := by
    rw [hres]; exact sub32_exact h0 h1
  have hsc : slot_count_of s = min ((s - 2048) / 2049) 65535 := by
    unfold slot_count_of
    rw [hsub, hdivisor]
    rcases le_or_lt 65535 ((s - 2048) / 2049) with h | h
    · rw [if_pos (by omega), min_eq_right h]
    · rw [if_neg (by omega), min_eq_left (by omega)]
  refine ⟨hsc, ?_⟩
  unfold dir_size_of
  rw [hsc]

/-- Witness for C8 at the degenerate input 4096, which yields slot_count = 0. -/
theorem spec_c8_sys_layout_total_witness :
    (slot_count_of 4096 = min ((4096 - 2048) / 2049) 65535 ∧
      dir_size_of 4096 = 1 + min ((4096 - 2048) / 2049) 65535 / 4) ∧
    slot_count_of 4096 = 0 ∧ dir_size_of 4096 = 1 :=
  ⟨spec_c8_sys_layout_total 4096 (by norm_num) (by norm_num), by decide, by decide⟩

/-- C4 counterexample: at sys_partition_sectors = 4096 the source places the
service directory at relative offset 2048, not at the claimed offset
2048 + dir_size + slot_size * slot_count = 2049. -/
theorem spec_c4_service_dir_counterexample :
    ¬ (sys_partition_service_dir_rel 4096 =
        sys_reserved_sectors + dir_size_of 4096 + sys_slot_size * slot_count_of 4096) := by
  decide

/-- C4 amended: for every system partition of at least 2048 sectors, the freeze
directory sits at relative offset 2048 and the service directory at relative
offset 2048 + slot_size * slot_count; the dir_size sectors of the freeze
directory are not added. Both offsets become absolute LBAs by adding
sys_partition_start. -/
theorem spec_c4_layout_amended (s start : Nat) (_h0 : 2048 ≤ s) :
    sys_partition_freeze_dir_rel = 2048 ∧
    sys_partition_service_dir_rel s = 2048 + sys_slot_size * slot_count_of s ∧
    sys_partition_freeze_dir_abs start = 2048 + start ∧
    sys_partition_service_dir_abs start s =
      2048 + sys_slot_size * slot_count_of s + start := by
  have hres : sys_partition_freeze_dir_rel = 2048 := by
    norm_num [sys_partition_freeze_dir_rel, sys_reserved_sectors]
  refine ⟨hres, ?_, ?_, ?_⟩
  · unfold sys_partition_service_dir_rel
    rw [hres]
  · unfold sys_partition_freeze_dir_abs
    rw [hres]
  · unfold sys_partition_service_dir_abs sys_partition_service_dir_rel
    rw [hres]

/-- Witness for the amended C4 at sys_partition_sectors = 4096 and
sys_partition_start = 0x300000. -/
theorem spec_c4_layout_amended_witness :
    sys_partition_freeze_dir_rel = 2048 ∧
    sys_partition_service_dir_rel 4096 = 2048 + sys_slot_size * slot_count_of 4096 ∧
    sys_partition_freeze_dir_abs 0x300000 = 2048 + 0x300000 ∧
    sys_partition_service_dir_abs 0x300000 4096 =
      2048 + sys_slot_size * slot_count_of 4096 + 0x300000 :=
  spec_c4_layout_amended 4096 0x300000 (by norm_num)

/-- Little endian reconstruction of a 32 bit value from its four bytes. -/
theorem byteOf_sum (v : Nat) (hv : v < 2 ^ 32) :
    byteOf v 0 + 256 * byteOf v 1 + 65536 * byteOf v 2 + 16777216 * byteOf v 3 = v := by
  have h : ∀ k, byteOf v k = v / 2 ^ (8 * k) % 256 := by
    intro k
    unfold byteOf
    rw [Nat.shiftRight_eq_div_pow]
    have hff : (0xff : Nat) = 2 ^ 8 - 1 := by norm_num
    rw [hff, Nat.and_pow_two_sub_one_eq_mod]
  rw [h 0, h 1, h 2, h 3]
  norm_num
  omega

/-- Write a 16 bit little endian value into a sector buffer, from
sector_buffer_write_uint16. -/
def sector_buffer_write_uint16 (buf : Nat → Nat) (off v : Nat) : Nat → Nat :=
  bufUpd (bufUpd buf off (byteOf v 0)) (off + 1) (byteOf v 1)

/-- Write a 32 bit little endian value into a sector buffer, from
sector_buffer_write_uint32. -/
def sector_buffer_write_uint32 (buf : Nat → Nat) (off v : Nat) : Nat → Nat :=
  bufUpd (bufUpd (bufUpd (bufUpd buf off (byteOf v 0)) (off + 1) (byteOf v 1))
    (off + 2) (byteOf v 2)) (off + 3) (byteOf v 3)

/-- Master boot record image, from build_mbr: disk signature, the MEGA65 system
partition entry, the FAT32 partition entry and the MBR signature, written into
a cleared buffer in source order. -/
def build_mbr (sys_partition_start sys_partition_sectors fat_partition_start
    fat_partition_sectors : Nat) : Nat → Nat :=
  let s01 := bufUpd zeroBuf 0x1b8 0x83
  let s02 := bufUpd s01 0x1b9 0x7d
  let s03 := bufUpd s02 0x1ba 0xcb
  let s04 := bufUpd s03 0x1bb 0xa6
  let s05 := bufUpd s04 0x1d2 0x41
  let s06 := bufUpd s05 0x1d6 (byteOf sys_partition_start 0)
  let s07 := bufUpd s06 0x1d7 (byteOf sys_partition_start 1)
  let s08 := bufUpd s07 0x1d8 (byteOf sys_partition_start 2)
  let s09 := bufUpd s08 0x1d9 (byteOf sys_partition_start 3)
  let s10 := bufUpd s09 0x1da (byteOf sys_partition_sectors 0)
  let s11 := bufUpd s10 0x1db (byteOf sys_partition_sectors 1)
  let s12 := bufUpd s11 0x1dc (byteOf sys_partition_sectors 2)
  let s13 := bufUpd s12 0x1dd (byteOf sys_partition_sectors 3)
  let s14 := bufUpd s13 0x1c2 0x0c
  let s15 := bufUpd s14 0x1c6 (byteOf fat_partition_start 0)
  let s16 := bufUpd s15 0x1c7 (byteOf fat_partition_start 1)
  let s17 := bufUpd s16 0x1c8 (byteOf fat_partition_start 2)
  let s18 := bufUpd s17 0x1c9 (byteOf fat_partition_start 3)
  let s19 := bufUpd s18 0x1ca (byteOf fat_partition_sectors 0)
  let s20 := bufUpd s19 0x1cb (byteOf fat_partition_sectors 1)
  let s21 := bufUpd s20 0x1cc (byteOf fat_partition_sectors 2)
  let s22 := bufUpd s21 0x1cd (byteOf fat_partition_sectors 3)
  let s23 := bufUpd s22 0x1fe 0x55
  bufUpd s23 0x1ff 0xaa

/-- Offsets of the MBR bytes that build_mbr writes explicitly. -/
def mbr_written_offsets : List Nat :=
  [0x1b8, 0x1b9, 0x1ba, 0x1bb, 0x1c2, 0x1c6, 0x1c7, 0x1c8, 0x1c9, 0x1ca, 0x1cb, 0x1cc,
   0x1cd, 0x1d2, 0x1d6, 0x1d7, 0x1d8, 0x1d9, 0x1da, 0x1db, 0x1dc, 0x1dd, 0x1fe, 0x1ff]

/-- C5: for all partition descriptors in u32 range, the MBR image has type byte
0x0C at 0x1C2 and 0x41 at 0x1D2, the FAT start and size as LE32 at 0x1C6 and
0x1CA inside entry0, the system start and size as LE32 at 0x1D6 and 0x1DA
inside entry1, the disk signature 83 7D CB A6 at 0x1B8, 55 AA at 0x1FE, and
every unlisted byte equal to zero. -/
theorem spec_c5_mbr_layout (a b c d : Nat) (ha : a < 2 ^ 32) (hb : b < 2 ^ 32)
    (hc : c < 2 ^ 32) (hd : d < 2 ^ 32) :
    build_mbr a b c d 0x1c2 = 0x0c ∧
    build_mbr a b c d 0x1d2 = 0x41 ∧
    readLE32 (build_mbr a b c d) 0x1c6 = c ∧
    readLE32 (build_mbr a b c d) 0x1ca = d ∧
    readLE32 (build_mbr a b c d) 0x1d6 = a ∧
    readLE32 (build_mbr a b c d) 0x1da = b ∧
    build_mbr a b c d 0x1b8 = 0x83 ∧ build_mbr a b c d 0x1b9 = 0x7d ∧
    build_mbr a b c d 0x1ba = 0xcb ∧ build_mbr a b c d 0x1bb = 0xa6 ∧
    build_mbr a b c d 0x1fe = 0x55 ∧ build_mbr a b c d 0x1ff = 0xaa ∧
    (∀ i, i < 512 → i ∉ mbr_written_offsets → build_mbr a b c d i = 0) := by
  refine ⟨by simp [build_mbr, bufUpd], by simp [build_mbr, bufUpd], ?_, ?_, ?_, ?_,
    by simp [build_mbr, bufUpd], by simp [build_mbr, bufUpd], by simp [build_mbr, bufUpd],
    by simp [build_mbr, bufUpd], by simp [build_mbr, bufUpd], by simp [build_mbr, bufUpd], ?_⟩
  · rw [show readLE32 (build_mbr a b c d) 0x1c6 =
      byteOf c 0 + 256 * byteOf c 1 + 65536 * byteOf c 2 + 16777216 * byteOf c 3 by
        simp [readLE32, build_mbr, bufUpd]]
    exact byteOf_sum c hc
  · rw [show readLE32 (build_mbr a b c d) 0x1ca =
      byteOf d 0 + 256 * byteOf d 1 + 65536 * byteOf d 2 + 16777216 * byteOf d 3 by
        simp [readLE32, build_mbr, bufUpd]]
    exact byteOf_sum d hd
  · rw [show readLE32 (build_mbr a b c d) 0x1d6 =
      byteOf a 0 + 256 * byteOf a 1 + 65536 * byteOf a 2 + 16777216 * byteOf a 3 by
        simp [readLE32, build_mbr, bufUpd]]
    exact byteOf_sum a ha
  · rw [show readLE32 (build_mbr a b c d) 0x1da =
      byteOf b 0 + 256 * byteOf b 1 + 65536 * byteOf b 2 + 16777216 * byteOf b 3 by
        simp [readLE32, build_mbr, bufUpd]]
    exact byteOf_sum b hb
  · intro i hlt hmem
    simp only [mbr_written_offsets, List.mem_cons, List.not_mem_nil, or_false, not_or] at hmem
    obtain ⟨g01, g02, g03, g04, g05, g06, g07, g08, g09, g10, g11, g12, g13, g14, g15, g16,
      g17, g18, g19, g20, g21, g22, g23, g24⟩ := hmem
    simp [build_mbr, bufUpd, zeroBuf, g01, g02, g03, g04, g05, g06, g07, g08, g09, g10,
      g11, g12, g13, g14, g15, g16, g17, g18, g19, g20, g21, g22, g23, g24]

/-- Witness for C5 at the descriptors named in the spec. -/
theorem spec_c5_mbr_layout_witness :
    build_mbr 0x100000 0x200000 0x800 0xfffff 0x1c2 = 0x0c ∧
    build_mbr 0x100000 0x200000 0x800 0xfffff 0x1d2 = 0x41 ∧
    readLE32 (build_mbr 0x100000 0x200000 0x800 0xfffff) 0x1c6 = 0x800 ∧
    readLE32 (build_mbr 0x100000 0x200000 0x800 0xfffff) 0x1ca = 0xfffff ∧
    readLE32 (build_mbr 0x100000 0x200000 0x800 0xfffff) 0x1d6 = 0x100000 ∧
    readLE32 (build_mbr 0x100000 0x200000 0x800 0xfffff) 0x1da = 0x200000 ∧
    build_mbr 0x100000 0x200000 0x800 0xfffff 0x1b8 = 0x83 ∧
    build_mbr 0x100000 0x200000 0x800 0xfffff 0x1b9 = 0x7d ∧
    build_mbr 0x100000 0x200000 0x800 0xfffff 0x1ba = 0xcb ∧
    build_mbr 0x100000 0x200000 0x800 0xfffff 0x1bb = 0xa6 ∧
    build_mbr 0x100000 0x200000 0x800 0xfffff 0x1fe = 0x55 ∧
    build_mbr 0x100000 0x200000 0x800 0xfffff 0x1ff = 0xaa ∧
    (∀ i, i < 512 → i ∉ mbr_written_offsets →
      build_mbr 0x100000 0x200000 0x800 0xfffff i = 0) :=
  spec_c5_mbr_layout 0x100000 0x200000 0x800 0xfffff (by norm_num) (by norm_num)
    (by norm_num) (by norm_num)

/-- FS information sector image, from build_fs_information_sector: lead and
structure signatures, the free cluster count as fs_clusters - 3 in uint32_t, the
next free cluster 3, and the boot signature, written into a cleared buffer. -/
def build_fs_information_sector (fs_clusters : Nat) : Nat → Nat :=
  let s01 := bufUpd zeroBuf 0 0x52
  let s02 := bufUpd s01 1 0x52
  let s03 := bufUpd s02 2 0x61
  let s04 := bufUpd s03 3 0x41
  let s05 := bufUpd s04 0x1e4 0x72
  let s06 := bufUpd s05 0x1e5 0x72
  let s07 := bufUpd s06 0x1e6 0x41
  let s08 := bufUpd s07 0x1e7 0x61
  let s09 := bufUpd s08 0x1e8 (byteOf (sub32 fs_clusters 3) 0)
  let s10 := bufUpd s09 0x1e9 (byteOf (sub32 fs_clusters 3) 1)
  let s11 := bufUpd s10 0x1ea (byteOf (sub32 fs_clusters 3) 2)
  let s12 := bufUpd s11 0x1eb (byteOf (sub32 fs_clusters 3) 3)
  let s13 := bufUpd s12 0x1ec (0x02 + 1)
  let s14 := bufUpd s13 510 0x55
  bufUpd s14 511 0xaa

/-- C7: for every cluster count of at least 3 (in u32 range), the FS information
sector holds fs_clusters - 3 as LE32 at 0x1E8, the next free cluster 3 as LE32
at 0x1EC, the lead signature RRaA at 0, the structure signature rrAa at 0x1E4
and the boot signature 55 AA at 510. -/
theorem spec_c7_fs_info_sector (n : Nat) (h3 : 3 ≤ n) (h32 : n < 2 ^ 32) :
    readLE32 (build_fs_information_sector n) 0x1e8 = n - 3 ∧
    readLE32 (build_fs_information_sector n) 0x1ec = 3 ∧
    build_fs_information_sector n 0 = 0x52 ∧ build_fs_information_sector n 1 = 0x52 ∧
    build_fs_information_sector n 2 = 0x61 ∧ build_fs_information_sector n 3 = 0x41 ∧
    build_fs_information_sector n 0x1e4 = 0x72 ∧ build_fs_information_sector n 0x1e5 = 0x72 ∧
    build_fs_information_sector n 0x1e6 = 0x41 ∧ build_fs_information_sector n 0x1e7 = 0x61 ∧
    build_fs_information_sector n 510 = 0x55 ∧ build_fs_information_sector n 511 = 0xaa := by
  have hsub : sub32 n 3 = n - 3 := sub32_exact h3 h32
  refine ⟨?_, ?_, by simp [build_fs_information_sector, bufUpd],
    by simp [build_fs_information_sector, bufUpd], by simp [build_fs_information_sector, bufUpd],
    by simp [build_fs_information_sector, bufUpd], by simp [build_fs_information_sector, bufUpd],
    by simp [build_fs_information_sector, bufUpd], by simp [build_fs_information_sector, bufUpd],
    by simp [build_fs_information_sector, bufUpd], by simp [build_fs_information_sector, bufUpd],
    by simp [build_fs_information_sector, bufUpd]⟩
  · rw [show readLE32 (build_fs_information_sector n) 0x1e8 =
      byteOf (sub32 n 3) 0 + 256 * byteOf (sub32 n 3) 1 + 65536 * byteOf (sub32 n 3) 2 +
        16777216 * byteOf (sub32 n 3) 3 by
        simp [readLE32, build_fs_information_sector, bufUpd]]
    rw [hsub]
    exact byteOf_sum (n - 3) (by omega)
  · simp [readLE32, build_fs_information_sector, bufUpd, zeroBuf]

/-- Witness for C7 at fs_clusters = 1000, whose free count field reads 997. -/
theorem spec_c7_fs_info_sector_witness :
    readLE32 (build_fs_information_sector 1000) 0x1e8 = 997 ∧
    readLE32 (build_fs_information_sector 1000) 0x1ec = 3 ∧
    build_fs_information_sector 1000 0 = 0x52 ∧ build_fs_information_sector 1000 1 = 0x52 ∧
    build_fs_information_sector 1000 2 = 0x61 ∧ build_fs_information_sector 1000 3 = 0x41 ∧
    build_fs_information_sector 1000 0x1e4 = 0x72 ∧
    build_fs_information_sector 1000 0x1e5 = 0x72 ∧
    build_fs_information_sector 1000 0x1e6 = 0x41 ∧
    build_fs_information_sector 1000 0x1e7 = 0x61 ∧
    build_fs_information_sector 1000 510 = 0x55 ∧
    build_fs_information_sector 1000 511 = 0xaa :=
  spec_c7_fs_info_sector 1000 (by norm_num) (by norm_num)

/-- System partition header image, from build_mega65_sys_sector: the magic
string MEGA65SYS00 followed by the freeze block and the mirroring service
block, written into a cleared buffer in source order. -/
def build_mega65_sys_sector (sys_partition_sectors : Nat) : Nat → Nat :=
  let s01 := bufUpd zeroBuf 0 77
  let s02 := bufUpd s01 1 69
  let s03 := bufUpd s02 2 71
  let s04 := bufUpd s03 3 65
  let s05 := bufUpd s04 4 54
  let s06 := bufUpd s05 5 53
  let s07 := bufUpd s06 6 83
  let s08 := bufUpd s07 7 89
  let s09 := bufUpd s08 8 83
  let s10 := bufUpd s09 9 48
  let s11 := bufUpd s10 10 48
  let s12 := sector_buffer_write_uint32 s11 0x10 0
  let s13 := sector_buffer_write_uint32 s12 0x14
    (sys_slot_size * slot_count_of sys_partition_sectors + dir_size_of sys_partition_sectors)
  let s14 := sector_buffer_write_uint32 s13 0x18 sys_slot_size
  let s15 := sector_buffer_write_uint16 s14 0x1c (slot_count_of sys_partition_sectors)
  let s16 := sector_buffer_write_uint16 s15 0x1e (dir_size_of sys_partition_sectors)
  let s17 := sector_buffer_write_uint32 s16 0x20
    (sys_slot_size * slot_count_of sys_partition_sectors + dir_size_of sys_partition_sectors)
  let s18 := sector_buffer_write_uint32 s17 0x24
    (sys_slot_size * slot_count_of sys_partition_sectors + dir_size_of sys_partition_sectors)
  let s19 := sector_buffer_write_uint32 s18 0x28 sys_slot_size
  let s20 := sector_buffer_write_uint16 s19 0x2c (slot_count_of sys_partition_sectors)
  sector_buffer_write_uint16 s20 0x2e (dir_size_of sys_partition_sectors)

/-- C10: for every system partition smaller than the 2048 sector reserved area,
the uint32_t subtraction wraps, the slot count caps at 65535 instead of being 0,
and the header then advertises freeze and service areas of 67124224 sectors,
far larger than the partition itself. -/
theorem spec_c10_small_sys_partition_wrap (s : Nat) (hs : s < 2048) :
    slot_count_of s = 0xffff ∧
    readLE32 (build_mega65_sys_sector s) 0x14 = 67124224 ∧
    readLE32 (build_mega65_sys_sector s) 0x24 = 67124224 ∧
    s < 67124224 := by
  have hdivisor : sys_slot_size * 2 + 1 = 2049 := by norm_num [sys_slot_size]
  have hsub : sub32 s sys_reserved_sectors = s + (2 ^ 32 - 2048) := by
    unfold sub32
    have hres : sys_reserved_sectors % 2 ^ 32 = 2048 := by norm_num [sys_reserved_sectors]
    rw [hres]
    exact Nat.mod_eq_of_lt (by omega)
  have hsc : slot_count_of s = 0xffff := by
    unfold slot_count_of
    rw [hsub, hdivisor, if_pos (by omega)]
  have hdir : dir_size_of s = 16384 := by
    unfold dir_size_of
    rw [hsc]
  have hval : sys_slot_size * slot_count_of s + dir_size_of s = 67124224 := by
    rw [hsc, hdir]
    norm_num [sys_slot_size]
  refine ⟨hsc, ?_, ?_, by omega⟩
  · rw [show readLE32 (build_mega65_sys_sector s) 0x14 =
      byteOf (sys_slot_size * slot_count_of s + dir_size_of s) 0 +
        256 * byteOf (sys_slot_size * slot_count_of s + dir_size_of s) 1 +
        65536 * byteOf (sys_slot_size * slot_count_of s + dir_size_of s) 2 +
        16777216 * byteOf (sys_slot_size * slot_count_of s + dir_size_of s) 3 by
        simp [readLE32, build_mega65_sys_sector, sector_buffer_write_uint16,
          sector_buffer_write_uint32, bufUpd]]
    rw [hval]
    exact byteOf_sum 67124224 (by norm_num)
  · rw [show readLE32 (build_mega65_sys_sector s) 0x24 =
      byteOf (sys_slot_size * slot_count_of s + dir_size_of s) 0 +
        256 * byteOf (sys_slot_size * slot_count_of s + dir_size_of s) 1 +
        65536 * byteOf (sys_slot_size * slot_count_of s + dir_size_of s) 2 +
        16777216 * byteOf (sys_slot_size * slot_count_of s + dir_size_of s) 3 by
        simp [readLE32, build_mega65_sys_sector, sector_buffer_write_uint16,
          sector_buffer_write_uint32, bufUpd]]
    rw [hval]
    exact byteOf_sum 67124224 (by norm_num)

/-- Witness for C10 at sys_partition_sectors = 1024. -/
theorem spec_c10_small_sys_partition_wrap_witness :
    slot_count_of 1024 = 0xffff ∧
    readLE32 (build_mega65_sys_sector 1024) 0x14 = 67124224 ∧
    readLE32 (build_mega65_sys_sector 1024) 0x24 = 67124224 ∧
    1024 < 67124224 :=
  spec_c10_small_sys_partition_wrap 1024 (by norm_num)

/-- Metadata sector images distinguished by the builder that produced them. -/
inductive SectorImage
  | mbr
  | sysHeader
  | sysConfig
  | dosBoot
  | fsInfo
  | emptyFat
  | rootDir
  deriving DecidableEq

/-- A destructive device operation: a single sector write of a built image, or
an inclusive erase of a sector range. -/
inductive DevOp
  | write (lba : Nat) (img : SectorImage)
  | eraseRange (first last : Nat)
  deriving DecidableEq

/-- Sequence of destructive device operations performed by main once formatting
is confirmed, in source order: the MBR write, the system partition header and
config writes, the reserved area erase to sys_partition_start + 1023, the
freeze and service directory erases, the boot sector and FS information writes
with their backups, the two FAT writes, the root directory write, and the gap
erases between the metadata regions. -/
def format_trace (sys_partition_start sys_partition_sectors fat_partition_start
    fat1_sector fat2_sector rootdir_sector : Nat) : List DevOp :=
  [DevOp.write 0 SectorImage.mbr,
   DevOp.write sys_partition_start SectorImage.sysHeader,
   DevOp.write (sys_partition_start + 1) SectorImage.sysConfig,
   DevOp.eraseRange (sys_partition_start + 2) (sys_partition_start + 1023),
   DevOp.eraseRange (sys_partition_freeze_dir_abs sys_partition_start)
     (sys_partition_freeze_dir_abs sys_partition_start +
       dir_size_of sys_partition_sectors - 1),
   DevOp.eraseRange (sys_partition_service_dir_abs sys_partition_start sys_partition_sectors)
     (sys_partition_service_dir_abs sys_partition_start sys_partition_sectors +
       dir_size_of sys_partition_sectors - 1),
   DevOp.write fat_partition_start SectorImage.dosBoot,
   DevOp.write (fat_partition_start + 6) SectorImage.dosBoot,
   DevOp.write (fat_partition_start + 1) SectorImage.fsInfo,
   DevOp.write (fat_partition_start + 7) SectorImage.fsInfo,
   DevOp.write (fat_partition_start + fat1_sector) SectorImage.emptyFat,
   DevOp.write (fat_partition_start + fat2_sector) SectorImage.emptyFat,
   DevOp.write (fat_partition_start + rootdir_sector) SectorImage.rootDir,
   DevOp.eraseRange (fat_partition_start + 1 + 1) (fat_partition_start + 6 - 1),
   DevOp.eraseRange (fat_partition_start + 6 + 1) (fat_partition_start + fat1_sector - 1),
   DevOp.eraseRange (fat_partition_start + fat1_sector + 1)
     (fat_partition_start + fat2_sector - 1),
   DevOp.eraseRange (fat_partition_start + fat2_sector + 1)
     (fat_partition_start + rootdir_sector - 1),
   DevOp.eraseRange (fat_partition_start + rootdir_sector + 1)
     (fat_partition_start + rootdir_sector + 1 + sectors_per_cluster - 1)]

/-- C6: evaluated at the geometry of a 4000000 sector device, the format
sequence follows the claimed order, but its reserved area erase ends at
sys_partition_start + 1023, covering only the first half of the 1 MiB (2048
sector) reserved area, whose true remainder ends at sys_partition_start + 2047:
the code contradicts its own comment and the claimed erase extent. -/
theorem spec_c6_format_trace_bug :
    format_trace 2001152 1998848 0x800 568 2516 4464 =
      [DevOp.write 0 SectorImage.mbr,
       DevOp.write 2001152 SectorImage.sysHeader,
       DevOp.write 2001153 SectorImage.sysConfig,
       DevOp.eraseRange 2001154 2002175,
       DevOp.eraseRange 2003200 2003443,
       DevOp.eraseRange 3000576 3000819,
       DevOp.write 2048 SectorImage.dosBoot,
       DevOp.write 2054 SectorImage.dosBoot,
       DevOp.write 2049 SectorImage.fsInfo,
       DevOp.write 2055 SectorImage.fsInfo,
       DevOp.write 2616 SectorImage.emptyFat,
       DevOp.write 4564 SectorImage.emptyFat,
       DevOp.write 6512 SectorImage.rootDir,
       DevOp.eraseRange 2050 2053,
       DevOp.eraseRange 2055 2615,
       DevOp.eraseRange 2617 4563,
       DevOp.eraseRange 4565 6511,
       DevOp.eraseRange 6513 6520] ∧
    (2002175 : Nat) ≠ 2001152 + 2047 := by
  constructor
  · decide
  · norm_num

/-- A staged file record read from a slot header: the zero terminated name
bytes, the byte length and the flash payload offset. -/
structure StagedFile where
  name : List Nat
  len : Nat
  payload : Nat
  deriving DecidableEq

/-- One scan step of the 8.3 name derivation loop in populate_file_system: a
dot moves the write position to the extension field at 8, any other character
is stored and advances the position, and the scan stops once the position
reaches 11. -/
def dos83_step : List Nat → Nat → List Nat → List Nat
  | [], _, buf => buf
  | ch :: rest, k, buf =>
    if ch = 46 then dos83_step rest 8 buf
    else if k + 1 ≥ 11 then buf.set k ch
    else dos83_step rest (k + 1) (buf.set k ch)

/-- The space padded DOS name built by populate_file_system from a zero
terminated file name, scanning into an 11 byte buffer of spaces. -/
def dosName83 (name : List Nat) : List Nat :=
  dos83_step (name.takeWhile (fun ch => ch ≠ 0)) 0 (List.replicate 11 32)

/-- Events of the embedded file populator: an allocator call with the derived
name and length, the copy of one 512 byte sector from a flash offset to a
device LBA, or the error report after a failed allocation. -/
inductive PopEvent
  | allocCall (name : List Nat) (len : Nat)
  | copySector (src dst : Nat)
  | allocFail
  deriving DecidableEq

/-- Predicate selecting allocator call events. -/
def isAllocCall : PopEvent → Bool
  | PopEvent.allocCall _ _ => true
  | _ => false

/-- Predicate selecting sector copy events. -/
def isCopy : PopEvent → Bool
  | PopEvent.copySector _ _ => true
  | _ => false

/-- Events produced for one staged file by the loop body of
populate_file_system: the allocator call, then, when the allocator returns a
nonzero first sector, one copy per iteration addr = 0, 512, ... of the copy
loop, which runs while addr <= len, writing to consecutive sectors from the
returned first sector; on a zero result an error report instead. -/
def populate_one (alloc : List Nat → Nat → Nat) (f : StagedFile) : List PopEvent :=
  PopEvent.allocCall (dosName83 f.name) f.len ::
    (if alloc (dosName83 f.name) f.len ≠ 0 then
      (List.range (f.len / 512 + 1)).map
        (fun k => PopEvent.copySector (f.payload + 512 * k)
          (alloc (dosName83 f.name) f.len + k))
    else [PopEvent.allocFail])

/-- Events of populate_file_system over the staged files of a slot, in file
order. -/
def populate_file_system (alloc : List Nat → Nat → Nat) (files : List StagedFile) :
    List PopEvent :=
  files.flatMap (populate_one alloc)

/-- The loop body emits exactly one allocator call per staged file. -/
theorem populate_one_filter_alloc (alloc : List Nat → Nat → Nat) (f : StagedFile) :
    (populate_one alloc f).filter isAllocCall =
      [PopEvent.allocCall (dosName83 f.name) f.len] := by
  unfold populate_one
  rw [List.filter_cons_of_pos rfl]
  congr 1
  apply List.filter_eq_nil_iff.mpr
  intro e he
  by_cases h : alloc (dosName83 f.name) f.len ≠ 0
  · rw [if_pos h] at he
    simp only [List.mem_map, List.mem_range] at he
    obtain ⟨k, _, rfl⟩ := he
    simp [isAllocCall]
  · rw [if_neg h] at he
    simp only [List.mem_singleton] at he
    subst he
    simp [isAllocCall]

/-- C9 counterexample: a staged file of exactly 512 bytes is copied as two
sectors, because the copy loop runs while addr <= length; the claimed
ceil(512 / 512) = 1 sector count does not match. -/
theorem spec_c9_copy_count_counterexample :
    (populate_one (fun _ _ => 100) ⟨[65], 512, 0⟩).countP isCopy = 2 ∧
    (512 + 511) / 512 ≠ 2 := by
  constructor
  · decide
  · norm_num

/-- C9 amended: the populator calls the allocator exactly once per staged file,
in original file order; for each file with a nonzero allocator result it emits
exactly len / 512 + 1 sector copies (one more than ceil(len / 512) when 512
divides len), from consecutive flash offsets starting at the payload offset to
consecutive device sectors starting at the allocator result; on a zero
allocator result it reports the failure and continues with the next file. -/
theorem spec_c9_populator_amended (alloc : List Nat → Nat → Nat)
    (files : List StagedFile) :
    (populate_file_system alloc files).filter isAllocCall =
      files.map (fun f => PopEvent.allocCall (dosName83 f.name) f.len) ∧
    (∀ f ∈ files, alloc (dosName83 f.name) f.len ≠ 0 →
      (populate_one alloc f).filter isCopy =
        (List.range (f.len / 512 + 1)).map
          (fun k => PopEvent.copySector (f.payload + 512 * k)
            (alloc (dosName83 f.name) f.len + k))) ∧
    (∀ f ∈ files, alloc (dosName83 f.name) f.len = 0 →
      (populate_one alloc f).filter isCopy = [] ∧
        PopEvent.allocFail ∈ populate_one alloc f) := by
  refine ⟨?_, ?_, ?_⟩
  · induction files with
    | nil => rfl
    | cons f fs ih =>
      simp only [populate_file_system, List.flatMap_cons, List.filter_append,
        List.map_cons] at ih ⊢
      rw [populate_one_filter_alloc, ih]
      rfl
  · intro f hf hne
    unfold populate_one
    rw [if_pos hne, List.filter_cons_of_neg (by simp [isCopy])]
    apply List.filter_eq_self.mpr
    intro e he
    simp only [List.mem_map, List.mem_range] at he
    obtain ⟨k, _, rfl⟩ := he
    rfl
  · intro f hf hz
    have hif : ¬ (alloc (dosName83 f.name) f.len ≠ 0) := fun h => h hz
    refine ⟨?_, ?_⟩
    · unfold populate_one
      rw [if_neg hif, List.filter_cons_of_neg (by simp [isCopy])]
      rfl
    · unfold populate_one
      rw [if_neg hif]
      simp

/-- Witness for the amended C9 on a two file slot with lengths 700 and 512 and
a constant allocator returning sector 100. -/
theorem spec_c9_populator_amended_witness :
    (populate_file_system (fun _ _ => 100)
        [⟨[77, 46, 82], 700, 1000⟩, ⟨[65, 46, 66], 512, 4000⟩]).filter isAllocCall =
      [⟨[77, 46, 82], 700, 1000⟩, (⟨[65, 46, 66], 512, 4000⟩ : StagedFile)].map
        (fun f => PopEvent.allocCall (dosName83 f.name) f.len) ∧
    (populate_one (fun _ _ => 100) ⟨[77, 46, 82], 700, 1000⟩).filter isCopy =
      (List.range (700 / 512 + 1)).map
        (fun k => PopEvent.copySector (1000 + 512 * k) (100 + k)) := by
  have h := spec_c9_populator_amended (fun _ _ => 100)
    [⟨[77, 46, 82], 700, 1000⟩, ⟨[65, 46, 66], 512, 4000⟩]
  refine ⟨h.1, ?_⟩
  exact h.2.1 ⟨[77, 46, 82], 700, 1000⟩ (by simp) (by norm_num)

end Fdisk
